import Mathlib

/-!
Verification of the Polacam compositing and floating-object core.

This file shallowly embeds the parts of the Polacam repository that the
specification claims are about:

- the frame geometry table from constants.ts (FRAME_DIMENSIONS),
- the canvas transform pipelines of services/imageProcessing.ts
  (generatePolaroid) and components/PhotoEditor.tsx (render),
- the per-pixel filter pass of applyFilterToContext, with byte stores
  modelled by the Uint8ClampedArray semantics (clamp to [0,255], round
  half to even),
- the caption substitution and placement of generatePolaroid,
- the floating-object handlers of App.tsx (handleDeleteFloating,
  handleToggleSave, handleBringToFront, handlePrint) over explicit state,
- the localStorage-backed store adapter of services/storageService.ts in
  the anonymous scope, with the stored list passed explicitly,
- the zoom clamps of components/DraggablePhoto.tsx.

Machine floats of the source are embedded as exact rationals; the canvas
current-transform matrix is an explicit affine map, with ctx.translate,
ctx.rotate and ctx.scale post-multiplying it exactly as the Canvas API
does.  Since rationals carry no transcendental functions, a rotation by an
angle is represented by the pair of its cosine and sine, passed as
parameters (c, s); rotation by 0 degrees is (1, 0) and by 90 degrees is
(0, 1).
-/

namespace Polacam

/-- Filter variants, from types.ts (enum FilterType). -/
inductive FilterType where
  | NORMAL
  | GRAYSCALE
  | SEPIA
  | VINTAGE
  | COOL
deriving DecidableEq, Repr

/-- Frame variants, from types.ts (enum FrameType). -/
inductive FrameType where
  | SQUARE
  | MINI
  | WIDE
  | CINEMA
  | PORTRAIT
deriving DecidableEq, Repr

/-- One row of the frame geometry table, from constants.ts. -/
structure FrameDims where
  width : ℚ
  height : ℚ
  photoSize : ℚ
  topPad : ℚ
  sidePad : ℚ
  bottomPad : ℚ
deriving DecidableEq, Repr

/-- The frame geometry table FRAME_DIMENSIONS of constants.ts. -/
def FRAME_DIMENSIONS : FrameType → FrameDims
  | FrameType.SQUARE => ⟨600, 720, 520, 40, 40, 160⟩
  | FrameType.MINI => ⟨430, 720, 370, 30, 30, 160⟩
  | FrameType.WIDE => ⟨860, 600, 780, 40, 40, 140⟩
  | FrameType.CINEMA => ⟨900, 500, 840, 30, 30, 100⟩
  | FrameType.PORTRAIT => ⟨550, 750, 470, 40, 40, 160⟩

/-- Height of the photo region, computed in generatePolaroid as
dims.height - dims.topPad - dims.bottomPad (imageProcessing.ts line 104)
and identically in the PhotoEditor render function. -/
def photoHeight (d : FrameDims) : ℚ := d.height - d.topPad - d.bottomPad

/-- A 2D affine map, written as the Canvas API transform matrix
(a, b, c, d, e, f): it sends (x, y) to (a x + c y + e, b x + d y + f). -/
structure Affine where
  a : ℚ
  b : ℚ
  c : ℚ
  d : ℚ
  e : ℚ
  f : ℚ
deriving DecidableEq, Repr

/-- Apply an affine map to a point. -/
def Affine.apply (m : Affine) (p : ℚ × ℚ) : ℚ × ℚ :=
  (m.a * p.1 + m.c * p.2 + m.e, m.b * p.1 + m.d * p.2 + m.f)

/-- Composition of affine maps: (m.mul n).apply p = m.apply (n.apply p).
This is how each ctx.translate / ctx.rotate / ctx.scale call updates the
canvas current transform: the new operation is post-multiplied. -/
def Affine.mul (m n : Affine) : Affine :=
  ⟨m.a * n.a + m.c * n.b,
   m.b * n.a + m.d * n.b,
   m.a * n.c + m.c * n.d,
   m.b * n.c + m.d * n.d,
   m.a * n.e + m.c * n.f + m.e,
   m.b * n.e + m.d * n.f + m.f⟩

/-- The identity transform (a freshly created canvas context). -/
def Affine.ident : Affine := ⟨1, 0, 0, 1, 0, 0⟩

/-- The transform pushed by ctx.translate(tx, ty). -/
def Affine.translateBy (tx ty : ℚ) : Affine := ⟨1, 0, 0, 1, tx, ty⟩

/-- The transform pushed by ctx.rotate(theta), with c = cos theta and
s = sin theta passed explicitly. -/
def Affine.rotCS (c s : ℚ) : Affine := ⟨c, s, -s, c, 0, 0⟩

/-- The transform pushed by ctx.scale(k, k). -/
def Affine.scaleBy (k : ℚ) : Affine := ⟨k, 0, 0, k, 0, 0⟩

/-- The current transform of the photo-region context when generatePolaroid
draws the source image (imageProcessing.ts lines 116-123):
translate(photoW / 2, photoH / 2); rotate(rotation); scale(scale, scale);
translate(config.x, config.y).  The pair (c, s) is the cosine and sine of
the rotation angle, k the scale, (px, py) the pan offset (config.x,
config.y). -/
def compositorPhotoTransform (d : FrameDims) (c s k px py : ℚ) : Affine :=
  (((Affine.ident.mul
      (Affine.translateBy (d.photoSize / 2) (photoHeight d / 2))).mul
      (Affine.rotCS c s)).mul
      (Affine.scaleBy k)).mul
      (Affine.translateBy px py)

/-- The same transform expressed in final-canvas coordinates: the photo
region canvas is composited onto the main canvas at (sidePad, topPad)
(imageProcessing.ts line 134, ctx.drawImage(photoCanvas, dims.sidePad,
dims.topPad)). -/
def compositorCanvasTransform (d : FrameDims) (c s k px py : ℚ) : Affine :=
  (Affine.translateBy d.sidePad d.topPad).mul (compositorPhotoTransform d c s k px py)

/-- The current transform of the preview canvas when the PhotoEditor render
function draws the source image (PhotoEditor.tsx lines 114-119):
translate(photoCenterX, photoCenterY); translate(position.x, position.y);
rotate(rotation); scale(scale, scale), where photoCenterX = sidePad +
photoW / 2 and photoCenterY = topPad + photoH / 2. -/
def previewTransform (d : FrameDims) (c s k px py : ℚ) : Affine :=
  (((Affine.ident.mul
      (Affine.translateBy (d.sidePad + d.photoSize / 2) (d.topPad + photoHeight d / 2))).mul
      (Affine.translateBy px py)).mul
      (Affine.rotCS c s)).mul
      (Affine.scaleBy k)

/-- The transform prescribed by the specification wording for the
Compositor, used to compare against the source: translate the region
center by (panX, panY), then rotate, then scale, then draw centered at
that point (spec section 4.3 step 4).  This definition follows the words
of the spec, not the source. -/
def specOrderTransform (d : FrameDims) (c s k px py : ℚ) : Affine :=
  (((Affine.ident.mul
      (Affine.translateBy (d.photoSize / 2) (photoHeight d / 2))).mul
      (Affine.translateBy px py)).mul
      (Affine.rotCS c s)).mul
      (Affine.scaleBy k)

/-- Both pipelines draw the image with drawImage(img, -w/2, -h/2), so the
image center sits at the local origin; its final position is the transform
applied to (0, 0). -/
def imageCenter (m : Affine) : ℚ × ℚ := m.apply (0, 0)

/-- C1: the Compositor (generatePolaroid) and the Interactive Preview
Surface (PhotoEditor render) do NOT place the source image at the same
point for every TransformState.  At frame Square, rotation 90 degrees
(cosine 0, sine 1), scale 1 and pan (100, 0), the compositor places the
image center at canvas point (300, 400) while the preview places it at
(400, 300): generatePolaroid applies the pan translation after rotate and
scale, the preview applies it before. -/
theorem c1_compositor_preview_divergence :
    imageCenter (compositorCanvasTransform (FRAME_DIMENSIONS FrameType.SQUARE) 0 1 1 100 0)
      = (300, 400) ∧
    imageCenter (previewTransform (FRAME_DIMENSIONS FrameType.SQUARE) 0 1 1 100 0)
      = (400, 300) ∧
    imageCenter (compositorCanvasTransform (FRAME_DIMENSIONS FrameType.SQUARE) 0 1 1 100 0)
      ≠ imageCenter (previewTransform (FRAME_DIMENSIONS FrameType.SQUARE) 0 1 1 100 0) := by
  norm_num [imageCenter, compositorCanvasTransform, compositorPhotoTransform, previewTransform,
    Affine.mul, Affine.apply, Affine.ident, Affine.translateBy, Affine.rotCS, Affine.scaleBy,
    FRAME_DIMENSIONS, photoHeight, Prod.ext_iff]

/-- C2 counterexample: the Compositor does not apply the pan offset before
rotation and scale.  At frame Square, rotation 90 degrees (cosine 0,
sine 1), scale 1 and pan (100, 0), generatePolaroid places the image
center at region point (260, 360), whereas the order claimed by the spec
(translate the region center by the pan, then rotate, then scale) would
place it at (360, 260). -/
theorem c2_pan_order_counterexample :
    imageCenter (compositorPhotoTransform (FRAME_DIMENSIONS FrameType.SQUARE) 0 1 1 100 0)
      = (260, 360) ∧
    imageCenter (specOrderTransform (FRAME_DIMENSIONS FrameType.SQUARE) 0 1 1 100 0)
      = (360, 260) ∧
    imageCenter (compositorPhotoTransform (FRAME_DIMENSIONS FrameType.SQUARE) 0 1 1 100 0)
      ≠ imageCenter (specOrderTransform (FRAME_DIMENSIONS FrameType.SQUARE) 0 1 1 100 0) := by
  norm_num [imageCenter, compositorPhotoTransform, specOrderTransform,
    Affine.mul, Affine.apply, Affine.ident, Affine.translateBy, Affine.rotCS, Affine.scaleBy,
    FRAME_DIMENSIONS, photoHeight, Prod.ext_iff]

/-- C2 amended: generatePolaroid places the source image by first rotating
about the region center, then scaling, and only then translating by the
pan offset, so the image center lands at regionCenter + scale * R(rotation)
applied to (panX, panY), where R is the rotation matrix with cosine c and
sine s. -/
theorem c2_compositor_pan_after_rotate_scale (d : FrameDims) (c s k px py : ℚ) :
    imageCenter (compositorPhotoTransform d c s k px py)
      = (d.photoSize / 2 + k * (c * px - s * py),
         photoHeight d / 2 + k * (s * px + c * py)) := by
  unfold imageCenter compositorPhotoTransform
  unfold Affine.mul Affine.apply Affine.ident Affine.translateBy Affine.rotCS Affine.scaleBy
  refine Prod.ext ?_ ?_ <;> simp <;> ring

/-!
## Filter engine

applyFilterToContext (imageProcessing.ts lines 20-62) reads bytes from the
region buffer, computes each new channel in floating point, and writes the
result back into the Uint8ClampedArray of the ImageData.  Writing to a
Uint8ClampedArray clamps to [0, 255] and rounds half to even (ECMAScript
ToUint8Clamp); floats are embedded as exact rationals.
-/

/-- Round half to even, the tie-break used by Uint8ClampedArray stores. -/
def roundHalfEven (q : ℚ) : ℤ :=
  if q - ⌊q⌋ < 1/2 then ⌊q⌋
  else if 1/2 < q - ⌊q⌋ then ⌊q⌋ + 1
  else if ⌊q⌋ % 2 = 0 then ⌊q⌋ else ⌊q⌋ + 1

/-- Storing a computed channel value into a Uint8ClampedArray slot
(ECMAScript ToUint8Clamp): clamp to [0, 255], round half to even. -/
def u8 (q : ℚ) : ℕ :=
  if q ≤ 0 then 0 else if 255 ≤ q then 255 else (roundHalfEven q).toNat

/-- One pixel of the byte buffer: red, green and blue channels (the alpha
channel is never written by the filter pass). -/
structure RGB where
  r : ℕ
  g : ℕ
  b : ℕ
deriving DecidableEq, Repr

/-- The per-pixel pass of applyFilterToContext (imageProcessing.ts lines
26-49), one pixel at a time.  NORMAL returns before touching the buffer. -/
def applyFilterPixel (filter : FilterType) (p : RGB) : RGB :=
  match filter with
  | FilterType.NORMAL => p
  | FilterType.GRAYSCALE =>
      let avg : ℚ := (3/10) * p.r + (59/100) * p.g + (11/100) * p.b
      ⟨u8 avg, u8 avg, u8 avg⟩
  | FilterType.SEPIA =>
      ⟨u8 ((p.r : ℚ) * (393/1000) + (p.g : ℚ) * (769/1000) + (p.b : ℚ) * (189/1000)),
       u8 ((p.r : ℚ) * (349/1000) + (p.g : ℚ) * (686/1000) + (p.b : ℚ) * (168/1000)),
       u8 ((p.r : ℚ) * (272/1000) + (p.g : ℚ) * (534/1000) + (p.b : ℚ) * (131/1000))⟩
  | FilterType.VINTAGE =>
      ⟨u8 ((p.r : ℚ) * (11/10) + 20),
       u8 ((p.g : ℚ) * (9/10) + 10),
       u8 ((p.b : ℚ) * (8/10))⟩
  | FilterType.COOL =>
      ⟨u8 ((p.r : ℚ) * (9/10)),
       u8 ((p.g : ℚ) * (19/20)),
       u8 ((p.b : ℚ) * (6/5))⟩

/-- One channel of the radial vignette overlay that SEPIA and VINTAGE
composite after the per-pixel pass (imageProcessing.ts lines 53-61): a
multiply-blended gradient fill, so the stored channel is
(1 - alpha) * base + alpha * (base * overlay / 255), written back through
the same clamped byte store. -/
def vignettePixelChannel (base overlay : ℕ) (alpha : ℚ) : ℕ :=
  u8 ((1 - alpha) * base + alpha * ((base : ℚ) * overlay / 255))

theorem roundHalfEven_le_floor_add_one (q : ℚ) : roundHalfEven q ≤ ⌊q⌋ + 1 := by
  unfold roundHalfEven
  split_ifs <;> omega

theorem u8_le_255 (q : ℚ) : u8 q ≤ 255 := by
  unfold u8
  split_ifs with h1 h2
  · exact Nat.zero_le 255
  · exact le_refl 255
  · have hq : q < 255 := not_le.mp h2
    have hf : ⌊q⌋ < 255 := Int.floor_lt.mpr (by exact_mod_cast hq)
    have hr := roundHalfEven_le_floor_add_one q
    have : roundHalfEven q ≤ (255 : ℤ) := by omega
    exact Int.toNat_le.mpr this

/-- C7: every channel written by the Filter Engine lies in [0, 255]: the
per-pixel pass of every filter variant maps byte inputs to byte outputs,
and the vignette multiply overlay of SEPIA and VINTAGE does too; channel
arithmetic saturates at 0 and 255 through the clamped byte store instead
of wrapping. -/
theorem c7_filter_engine_clamps (filter : FilterType) (p : RGB)
    (base overlay : ℕ) (alpha : ℚ)
    (hr : p.r ≤ 255) (hg : p.g ≤ 255) (hb : p.b ≤ 255) :
    (applyFilterPixel filter p).r ≤ 255 ∧
    (applyFilterPixel filter p).g ≤ 255 ∧
    (applyFilterPixel filter p).b ≤ 255 ∧
    vignettePixelChannel base overlay alpha ≤ 255 := by
  cases filter <;>
    simp only [applyFilterPixel, vignettePixelChannel] <;>
    exact ⟨by first | exact hr | exact u8_le_255 _,
           by first | exact hg | exact u8_le_255 _,
           by first | exact hb | exact u8_le_255 _,
           u8_le_255 _⟩

/-- C7 witness: the VINTAGE filter on white (255, 255, 255) saturates at
255 and every channel stays in range. -/
theorem c7_filter_engine_clamps_witness :
    (applyFilterPixel FilterType.VINTAGE ⟨255, 255, 255⟩).r ≤ 255 ∧
    (applyFilterPixel FilterType.VINTAGE ⟨255, 255, 255⟩).g ≤ 255 ∧
    (applyFilterPixel FilterType.VINTAGE ⟨255, 255, 255⟩).b ≤ 255 ∧
    vignettePixelChannel 200 60 (2/5) ≤ 255 :=
  c7_filter_engine_clamps FilterType.VINTAGE ⟨255, 255, 255⟩ 200 60 (2/5)
    (by norm_num) (by norm_num) (by norm_num)

/-!
## Photo region pixels at the identity transform

For the identity transform (pan (0, 0), rotation 0, scale 1) the pixels
of the photo-region buffer right before applyFilterToContext runs are:
the near-black backdrop fill #1a1a1a = (26, 26, 26) (imageProcessing.ts
lines 113-114) everywhere except the axis-aligned rectangle covered by the
source image, which generatePolaroid draws centered (lines 116-123), its
top-left corner at ((photoSize - imgW) / 2, (photoH - imgH) / 2).
-/

/-- The backdrop fill color #1a1a1a of the photo region. -/
def backdropPixel : RGB := ⟨26, 26, 26⟩

/-- Pixel (px, py) of the photo-region buffer after the backdrop fill and
the centered, untransformed draw of a solid-colored imgW x imgH source
image. -/
def regionPixelAtIdentity (d : FrameDims) (imgW imgH : ℚ) (src : RGB) (px py : ℕ) : RGB :=
  if (d.photoSize - imgW) / 2 ≤ (px : ℚ) ∧ (px : ℚ) < (d.photoSize + imgW) / 2 ∧
     (photoHeight d - imgH) / 2 ≤ (py : ℚ) ∧ (py : ℚ) < (photoHeight d + imgH) / 2
  then src else backdropPixel

/-- Pixel (px, py) of the photo-region buffer after generatePolaroid has
also run the filter pass over it (imageProcessing.ts line 126). -/
def composedRegionPixel (d : FrameDims) (imgW imgH : ℚ) (src : RGB)
    (filter : FilterType) (px py : ℕ) : RGB :=
  applyFilterPixel filter (regionPixelAtIdentity d imgW imgH src px py)

/-!
## Caption
-/

/-- Two-digit zero padding, as produced by the 2-digit options of
toLocaleDateString. -/
def pad2 (n : ℕ) : String := if n < 10 then "0" ++ toString n else toString n

/-- The date stamp built in generatePolaroid (imageProcessing.ts lines
144-146): new Date().toLocaleDateString with locale en-US and 2-digit
year, month and day renders month/day/year (ECMA-402 US ordering), and
the subsequent replace turns each slash into the three characters
space-dot-space. -/
def usDateText (y2 m dd : ℕ) : String :=
  pad2 m ++ " . " ++ pad2 dd ++ " . " ++ pad2 y2

/-- The JavaScript String.prototype.trim: drop whitespace from both ends,
written over the character list so that it evaluates by reduction. -/
def jsTrim (s : String) : String :=
  String.mk (((s.data.dropWhile Char.isWhitespace).reverse.dropWhile Char.isWhitespace).reverse)

/-- The caption text drawn by generatePolaroid: config.caption.trim()
when truthy, else the date stamp (imageProcessing.ts line 144). -/
def captionText (caption : String) (y2 m dd : ℕ) : String :=
  if jsTrim caption = "" then usDateText y2 m dd else jsTrim caption

/-- What generatePolaroid draws for the caption (imageProcessing.ts lines
138-154): the text, the translate target (canvas.width / 2,
dims.height - dims.bottomPad / 2), and the rotation jitter
Math.random() * 0.04 - 0.02 with the random draw rnd passed in. -/
structure CaptionDraw where
  text : String
  x : ℚ
  y : ℚ
  rot : ℚ
deriving DecidableEq, Repr

/-- The caption drawing parameters of generatePolaroid for a frame
variant, caption, current date and random draw. -/
def generateCaption (frame : FrameType) (caption : String) (y2 m dd : ℕ)
    (rnd : ℚ) : CaptionDraw :=
  let dims := FRAME_DIMENSIONS frame
  ⟨captionText caption y2 m dd,
   dims.width / 2,
   dims.height - dims.bottomPad / 2,
   rnd * (1/25) - 1/50⟩

/-- C6 counterexample: composing a 400 x 400 solid-red source at the
identity transform in the Square frame with the Grayscale filter makes
the center pixel (260, 260) of the photo region equal to (76, 76, 76) -
the clamped store of luminance 0.3 * 255 = 76.5 - which is nowhere near
mid-gray (127, 127, 127), refuting the claimed expected output. -/
theorem c6_square_grayscale_red_counterexample :
    composedRegionPixel (FRAME_DIMENSIONS FrameType.SQUARE) 400 400 ⟨255, 0, 0⟩
        FilterType.GRAYSCALE 260 260 = ⟨76, 76, 76⟩ ∧
    ¬ (107 ≤ (composedRegionPixel (FRAME_DIMENSIONS FrameType.SQUARE) 400 400 ⟨255, 0, 0⟩
        FilterType.GRAYSCALE 260 260).r ∧
       (composedRegionPixel (FRAME_DIMENSIONS FrameType.SQUARE) 400 400 ⟨255, 0, 0⟩
        FilterType.GRAYSCALE 260 260).r ≤ 147) := by
  have h : composedRegionPixel (FRAME_DIMENSIONS FrameType.SQUARE) 400 400 ⟨255, 0, 0⟩
      FilterType.GRAYSCALE 260 260 = ⟨76, 76, 76⟩ := by
    unfold composedRegionPixel regionPixelAtIdentity
    rw [if_pos (by norm_num [FRAME_DIMENSIONS, photoHeight])]
    norm_num [applyFilterPixel, u8, roundHalfEven]
    decide
  refine ⟨h, ?_⟩
  rw [h]
  norm_num

/-- C6 amended: the Square-frame Grayscale composition of a 400 x 400
solid-red source at the identity transform yields a photo region that is
dark gray (76, 76, 76) - the grayscale luminance of pure red - exactly on
the 400 x 400 centered rectangle [60, 460) x [60, 460) covered by the
image, and near-black (26, 26, 26), the grayscaled letterbox backdrop,
elsewhere; the empty caption is auto-substituted by the date stamp. -/
theorem c6_square_grayscale_red_amended (px py y2 m dd : ℕ) :
    composedRegionPixel (FRAME_DIMENSIONS FrameType.SQUARE) 400 400 ⟨255, 0, 0⟩
        FilterType.GRAYSCALE px py
      = (if 60 ≤ px ∧ px < 460 ∧ 60 ≤ py ∧ py < 460
         then (⟨76, 76, 76⟩ : RGB) else ⟨26, 26, 26⟩) ∧
    captionText "" y2 m dd = usDateText y2 m dd := by
  constructor
  · unfold composedRegionPixel regionPixelAtIdentity
    have hcond :
        ((FRAME_DIMENSIONS FrameType.SQUARE).photoSize - 400) / 2 ≤ (px : ℚ) ∧
        (px : ℚ) < ((FRAME_DIMENSIONS FrameType.SQUARE).photoSize + 400) / 2 ∧
        (photoHeight (FRAME_DIMENSIONS FrameType.SQUARE) - 400) / 2 ≤ (py : ℚ) ∧
        (py : ℚ) < (photoHeight (FRAME_DIMENSIONS FrameType.SQUARE) + 400) / 2 ↔
        (60 ≤ px ∧ px < 460 ∧ 60 ≤ py ∧ py < 460) := by
      norm_num [FRAME_DIMENSIONS, photoHeight]
    rw [apply_ite (applyFilterPixel FilterType.GRAYSCALE), if_congr hcond rfl rfl]
    congr 1 <;> (norm_num [applyFilterPixel, backdropPixel, u8, roundHalfEven]; decide)
  · rw [captionText, if_pos (by decide)]

/-- C8 counterexample: with an empty caption the substituted date stamp
for November-free example date 2026-10-11 is the US-ordered string
"10 . 11 . 26", not a YY.MM.DD stamp. -/
theorem c8_date_order_counterexample :
    (generateCaption FrameType.SQUARE "" 26 10 11 0).text = "10 . 11 . 26" ∧
    (generateCaption FrameType.SQUARE "" 26 10 11 0).text ≠ "26.10.11" ∧
    (generateCaption FrameType.SQUARE "" 26 10 11 0).text ≠ "26 . 10 . 11" := by
  refine ⟨?_, ?_, ?_⟩ <;> decide

/-- C8 amended: when the caption trims to empty, generatePolaroid
substitutes the current date in US order, formatted MM . DD . YY, and
draws it horizontally centered at canvasWidth / 2 and vertically at
canvasHeight - bottomPadding / 2 inside the bottom band, with a random
rotation jitter in [-0.02, 0.02) radians (about plus or minus 1.15
degrees). -/
theorem c8_caption_substitution_amended (frame : FrameType) (caption : String)
    (y2 m dd : ℕ) (rnd : ℚ) (hc : jsTrim caption = "") (h0 : 0 ≤ rnd) (h1 : rnd < 1) :
    (generateCaption frame caption y2 m dd rnd).text = usDateText y2 m dd ∧
    (generateCaption frame caption y2 m dd rnd).x = (FRAME_DIMENSIONS frame).width / 2 ∧
    (generateCaption frame caption y2 m dd rnd).y
      = (FRAME_DIMENSIONS frame).height - (FRAME_DIMENSIONS frame).bottomPad / 2 ∧
    -(1/50) ≤ (generateCaption frame caption y2 m dd rnd).rot ∧
    (generateCaption frame caption y2 m dd rnd).rot < 1/50 := by
  refine ⟨?_, rfl, rfl, ?_, ?_⟩
  · simp [generateCaption, captionText, hc]
  · simp only [generateCaption]
    linarith
  · simp only [generateCaption]
    linarith

/-- C8 witness: the amended caption theorem at frame Square, a whitespace
caption, date 2026-10-11 and random draw one half. -/
theorem c8_caption_substitution_amended_witness :
    (generateCaption FrameType.SQUARE "  " 26 10 11 (1/2)).text = usDateText 26 10 11 ∧
    (generateCaption FrameType.SQUARE "  " 26 10 11 (1/2)).x
      = (FRAME_DIMENSIONS FrameType.SQUARE).width / 2 ∧
    (generateCaption FrameType.SQUARE "  " 26 10 11 (1/2)).y
      = (FRAME_DIMENSIONS FrameType.SQUARE).height
        - (FRAME_DIMENSIONS FrameType.SQUARE).bottomPad / 2 ∧
    -(1/50) ≤ (generateCaption FrameType.SQUARE "  " 26 10 11 (1/2)).rot ∧
    (generateCaption FrameType.SQUARE "  " 26 10 11 (1/2)).rot < 1/50 :=
  c8_caption_substitution_amended FrameType.SQUARE "  " 26 10 11 (1/2)
    (by decide) (by norm_num) (by norm_num)

/-!
## Application state: photos, floating objects, store adapter

App.tsx keeps the gallery list (photos), the live floating set
(floatingPhotos) and a z-index counter.  The localStorage store of
storageService.ts is embedded by passing the stored list explicitly;
the outcomes of the asynchronous adapter calls are passed in as Except
values.
-/

/-- A persisted print record, from types.ts (interface Photo). -/
structure Photo where
  id : String
  dataUrl : String
  originalUrl : String
  createdAt : ℕ
  caption : String
  filter : FilterType
  frameType : FrameType
deriving DecidableEq, Repr

/-- A live desktop object, from types.ts (interface FloatingPhoto extends
Photo). -/
structure FloatingPhoto where
  id : String
  dataUrl : String
  originalUrl : String
  createdAt : ℕ
  caption : String
  filter : FilterType
  frameType : FrameType
  x : ℚ
  y : ℚ
  rotation : ℚ
  scale : ℚ
  zIndex : ℕ
  isNew : Bool
  isSaved : Bool
deriving DecidableEq, Repr

/-- The App.tsx state the persistence claims are about: the gallery list
(photos) and the live floating set (floatingPhotos). -/
structure AppState where
  photos : List Photo
  floating : List FloatingPhoto
deriving DecidableEq, Repr

/-- saveLocalPhoto of storageService.ts (lines 31-35): read the stored
list, prepend the photo, write it back.  The store is passed and returned
explicitly. -/
def saveLocalPhoto (photo : Photo) (store : List Photo) : List Photo :=
  photo :: store

/-- deleteLocalPhoto of storageService.ts (lines 37-41): drop every entry
with the given id. -/
def deleteLocalPhoto (id : String) (store : List Photo) : List Photo :=
  store.filter (fun p => p.id != id)

/-- handleDeleteFloating of App.tsx (lines 184-186): filter the floating
set by id.  It touches nothing else. -/
def handleDeleteFloating (id : String) (s : AppState) : AppState :=
  { s with floating := s.floating.filter (fun p => p.id != id) }

/-- handleToggleSave of App.tsx (lines 228-253).  The awaited adapter
outcomes are passed in as saveResult and delResult; each branch is wrapped
in try/catch whose catch only logs, so the handler always returns normally
- embedded as always returning Except.ok. -/
def handleToggleSave (saveResult delResult : Except String Unit)
    (photo : Photo) (s : AppState) : Except String AppState :=
  if s.photos.any (fun p => p.id == photo.id) then
    match delResult with
    | Except.ok _ =>
        Except.ok ⟨s.photos.filter (fun p => p.id != photo.id),
          s.floating.map (fun p =>
            if p.id == photo.id then { p with isSaved := false } else p)⟩
    | Except.error _ => Except.ok s
  else
    match saveResult with
    | Except.ok _ =>
        Except.ok ⟨photo :: s.photos,
          s.floating.map (fun p =>
            if p.id == photo.id then { p with isSaved := true } else p)⟩
    | Except.error _ => Except.ok s

/-- A gallery record with id p1, used by the C3 counterexample. -/
def c3Photo : Photo := ⟨"p1", "url1", "orig1", 5, "hello", FilterType.NORMAL, FrameType.SQUARE⟩

/-- A kept floating object with the same id p1. -/
def c3Kept : FloatingPhoto :=
  ⟨"p1", "url1", "orig1", 5, "hello", FilterType.NORMAL, FrameType.SQUARE,
   10, 20, 0, 1, 101, false, true⟩

/-- A second floating object with a different id p2. -/
def c3Other : FloatingPhoto :=
  ⟨"p2", "url2", "orig2", 6, "hey", FilterType.COOL, FrameType.WIDE,
   30, 40, 2, 1, 102, false, false⟩

/-- A state holding both floating objects and the persisted record p1. -/
def c3State : AppState := ⟨[c3Photo], [c3Kept, c3Other]⟩

/-- C3 counterexample: discarding the kept floating object p1 removes it
from the live set but leaves its record in the persistent photos list,
although the object had isSaved = true - handleDeleteFloating never calls
the store adapter, refuting the claimed retraction from the store. -/
theorem c3_discard_keeps_store_counterexample :
    c3Kept.isSaved = true ∧
    (handleDeleteFloating "p1" c3State).floating = [c3Other] ∧
    (handleDeleteFloating "p1" c3State).photos = [c3Photo] ∧
    c3Photo.id = "p1" := by
  refine ⟨rfl, by decide, rfl, rfl⟩

/-- C3 amended: handleDeleteFloating removes exactly the floating objects
with the given id from the live set, keeps every other live object, and
leaves the persistent photos list untouched, whether or not the object was
kept. -/
theorem c3_discard_removes_live_only (id : String) (s : AppState) :
    (handleDeleteFloating id s).photos = s.photos ∧
    (∀ p ∈ (handleDeleteFloating id s).floating, p.id ≠ id) ∧
    (∀ p ∈ s.floating, p.id ≠ id → p ∈ (handleDeleteFloating id s).floating) := by
  refine ⟨rfl, ?_, ?_⟩
  · intro p hp
    have h := List.of_mem_filter hp
    simpa [bne_iff_ne] using h
  · intro p hp hne
    exact List.mem_filter.mpr ⟨hp, by simpa [bne_iff_ne] using hne⟩

/-- C3 witness: the amended discard theorem applied to the concrete state,
keeping the p2 object and the stored p1 record. -/
theorem c3_discard_removes_live_only_witness :
    (handleDeleteFloating "p1" c3State).photos = c3State.photos ∧
    c3Other ∈ (handleDeleteFloating "p1" c3State).floating :=
  ⟨(c3_discard_removes_live_only "p1" c3State).1,
   (c3_discard_removes_live_only "p1" c3State).2.2 c3Other (by decide) (by decide)⟩

/-- C4: if the keep branch of handleToggleSave runs against a failing
store (savePhoto rejects) for a record that is not yet in the photos list,
the handler returns normally (the catch only logs) with the state
unchanged: the photos list, and in particular every isSaved flag, is
exactly as before. -/
theorem c4_keep_failure_leaves_state (e : String) (delResult : Except String Unit)
    (photo : Photo) (s : AppState)
    (h : s.photos.any (fun p => p.id == photo.id) = false) :
    handleToggleSave (Except.error e) delResult photo s = Except.ok s := by
  simp [handleToggleSave, h]

/-- C4 witness: a simulated store failure on keeping a fresh record leaves
the concrete one-object state untouched and raises nothing. -/
theorem c4_keep_failure_leaves_state_witness :
    handleToggleSave (Except.error "store down") (Except.ok ())
      ⟨"q1", "u", "o", 7, "c", FilterType.SEPIA, FrameType.MINI⟩
      ⟨[c3Photo], [c3Other]⟩
    = Except.ok ⟨[c3Photo], [c3Other]⟩ :=
  c4_keep_failure_leaves_state "store down" (Except.ok ())
    ⟨"q1", "u", "o", 7, "c", FilterType.SEPIA, FrameType.MINI⟩
    ⟨[c3Photo], [c3Other]⟩ (by decide)

/-- The record used by the C5 counterexample. -/
def c5Photo : Photo := ⟨"r1", "url", "orig", 9, "cap", FilterType.VINTAGE, FrameType.CINEMA⟩

/-- C5 counterexample: saving the same record twice in the anonymous scope
leaves two entries for it in the store - the second savePhoto call is not
a no-op and the store adapter deduplicates nothing. -/
theorem c5_double_save_duplicates_counterexample :
    (saveLocalPhoto c5Photo (saveLocalPhoto c5Photo [])).countP
        (fun q => q.id == c5Photo.id) = 2 ∧
    saveLocalPhoto c5Photo (saveLocalPhoto c5Photo []) ≠ saveLocalPhoto c5Photo [] := by
  refine ⟨by decide, by decide⟩

/-- C5 amended: savePhoto in the anonymous scope unconditionally prepends
the record, so each call adds one entry for its id: two calls with the
same record add exactly two.  Idempotence is not provided by the adapter;
the caller (handleToggleSave) avoids duplicates by checking membership
before saving. -/
theorem c5_save_prepends_each_call (photo : Photo) (store : List Photo) :
    (saveLocalPhoto photo (saveLocalPhoto photo store)).countP
        (fun q => q.id == photo.id)
      = store.countP (fun q => q.id == photo.id) + 2 := by
  simp [saveLocalPhoto, List.countP_cons]

/-!
## Z-order

App.tsx drives z-order with a single incrementing counter (zIndexCounter,
initially 100).  handlePrint assigns counter + 1 to a new floating object;
handleBringToFront assigns counter + 1 to the focused object.  The random
rest position and rotation of a new print are passed in as parameters.
-/

/-- The data handlePrint feeds into a new FloatingPhoto (App.tsx lines
128-164): identity and content fields plus the randomly drawn rest
position and rotation. -/
structure PrintParams where
  id : String
  dataUrl : String
  originalUrl : String
  createdAt : ℕ
  caption : String
  filter : FilterType
  frameType : FrameType
  x : ℚ
  y : ℚ
  rotation : ℚ
deriving DecidableEq, Repr

/-- The floating-object manager state: the zIndexCounter ref and the
floatingPhotos list of App.tsx. -/
structure ZState where
  counter : ℕ
  floating : List FloatingPhoto
deriving DecidableEq, Repr

/-- handlePrint (App.tsx lines 145-164): increment the counter and append
a new floating object with zIndex = counter, scale 1, isNew true, isSaved
false. -/
def handlePrintNew (ps : PrintParams) (s : ZState) : ZState :=
  { counter := s.counter + 1,
    floating := s.floating ++
      [⟨ps.id, ps.dataUrl, ps.originalUrl, ps.createdAt, ps.caption, ps.filter,
        ps.frameType, ps.x, ps.y, ps.rotation, 1, s.counter + 1, true, false⟩] }

/-- handleBringToFront (App.tsx lines 179-182): increment the counter and
set the zIndex of the focused object to it via handleUpdateFloating. -/
def handleBringToFront (id : String) (s : ZState) : ZState :=
  { counter := s.counter + 1,
    floating := s.floating.map (fun p =>
      if p.id == id then { p with zIndex := s.counter + 1 } else p) }

/-- A create-print or focus operation on the floating set. -/
inductive ZOp where
  | create (ps : PrintParams)
  | focus (id : String)
deriving DecidableEq, Repr

/-- Apply one operation. -/
def zstep (o : ZOp) (s : ZState) : ZState :=
  match o with
  | ZOp.create ps => handlePrintNew ps s
  | ZOp.focus id => handleBringToFront id s

/-- Run a sequence of operations from the initial App.tsx state:
zIndexCounter = 100 and no floating photos. -/
def runZOps (ops : List ZOp) : ZState :=
  ops.foldl (fun s o => zstep o s) ⟨100, []⟩

/-- The counter dominates every live zIndex. -/
def ZInv (s : ZState) : Prop := ∀ p ∈ s.floating, p.zIndex ≤ s.counter

theorem zInv_step (o : ZOp) (s : ZState) (h : ZInv s) : ZInv (zstep o s) := by
  cases o with
  | create ps =>
      intro p hp
      simp only [zstep, handlePrintNew] at hp ⊢
      rcases List.mem_append.mp hp with hold | hnew
      · exact Nat.le_succ_of_le (h p hold)
      · rcases List.mem_singleton.mp hnew with rfl
        exact le_refl _
  | focus id =>
      intro p hp
      simp only [zstep, handleBringToFront] at hp ⊢
      rcases List.mem_map.mp hp with ⟨q, hq, rfl⟩
      by_cases hb : q.id == id
      · simp only [hb, if_pos]
        exact le_refl _
      · simp only [hb]
        exact Nat.le_succ_of_le (h q hq)

theorem zInv_run (ops : List ZOp) : ZInv (runZOps ops) := by
  have hgen : ∀ (l : List ZOp) (s : ZState), ZInv s →
      ZInv (l.foldl (fun s o => zstep o s) s) := by
    intro l
    induction l with
    | nil => intro s hs; exact hs
    | cons o t ih => intro s hs; exact ih (zstep o s) (zInv_step o s hs)
  exact hgen ops ⟨100, []⟩ (by intro p hp; cases hp)

/-- C9: over any sequence of create-print and focus operations from the
initial state, (a) focusing an object raises its zIndex strictly above the
zIndex of every other live object, and (b) a newly created print, whose id
is fresh among the live objects, receives a zIndex strictly above the
zIndex of every other live object.  The single incrementing counter dominates
every live zIndex, so counter + 1 is a new strict maximum. -/
theorem c9_zorder_focus_top (ops : List ZOp) (i : String) (ps : PrintParams) :
    (∀ p ∈ (zstep (ZOp.focus i) (runZOps ops)).floating,
       ∀ q ∈ (zstep (ZOp.focus i) (runZOps ops)).floating,
         p.id ≠ i → q.id = i → p.zIndex < q.zIndex) ∧
    ((∀ p ∈ (runZOps ops).floating, p.id ≠ ps.id) →
      ∀ p ∈ (zstep (ZOp.create ps) (runZOps ops)).floating,
        ∀ q ∈ (zstep (ZOp.create ps) (runZOps ops)).floating,
          p.id ≠ ps.id → q.id = ps.id → p.zIndex < q.zIndex) := by
  have hinv := zInv_run ops
  constructor
  · intro p hp q hq hpne hqi
    simp only [zstep, handleBringToFront] at hp hq
    rcases List.mem_map.mp hp with ⟨p0, hp0, rfl⟩
    rcases List.mem_map.mp hq with ⟨q0, hq0, rfl⟩
    by_cases hbq : q0.id == i
    · by_cases hbp : p0.id == i
      · exfalso
        apply hpne
        simp only [hbp, if_pos]
        exact beq_iff_eq.mp hbp
      · simp only [hbq, if_pos, hbp, if_neg]
        exact Nat.lt_succ_of_le (hinv p0 hp0)
    · exfalso
      have hqid : q0.id = i := by simpa [hbq] using hqi
      exact hbq (beq_iff_eq.mpr hqid)
  · intro hfresh p hp q hq hpne hqi
    simp only [zstep, handlePrintNew] at hp hq
    rcases List.mem_append.mp hq with hqold | hqnew
    · exact absurd hqi (hfresh q hqold)
    · rcases List.mem_singleton.mp hqnew with rfl
      rcases List.mem_append.mp hp with hpold | hpnew
      · exact Nat.lt_succ_of_le (hinv p hpold)
      · rcases List.mem_singleton.mp hpnew with rfl
        exact absurd rfl hpne

/-- First demo print for the C9 witness. -/
def c9psA : PrintParams :=
  ⟨"a", "da", "oa", 1, "ca", FilterType.NORMAL, FrameType.SQUARE, 10, 20, 3⟩

/-- Second demo print for the C9 witness. -/
def c9psB : PrintParams :=
  ⟨"b", "db", "ob", 2, "cb", FilterType.COOL, FrameType.WIDE, 30, 40, 2⟩

/-- Demo operation sequence: print a, then print b. -/
def c9ops : List ZOp := [ZOp.create c9psA, ZOp.create c9psB]

/-- Object a after the sequence and a focus on a: zIndex 103. -/
def c9A : FloatingPhoto :=
  ⟨"a", "da", "oa", 1, "ca", FilterType.NORMAL, FrameType.SQUARE, 10, 20, 3, 1, 103, true, false⟩

/-- Object b after the sequence and a focus on a: zIndex 102. -/
def c9B : FloatingPhoto :=
  ⟨"b", "db", "ob", 2, "cb", FilterType.COOL, FrameType.WIDE, 30, 40, 2, 1, 102, true, false⟩

/-- C9 witness: printing a then b and focusing a leaves a on top: its
zIndex 103 strictly exceeds the zIndex 102 of b. -/
theorem c9_zorder_focus_top_witness :
    c9B ∈ (zstep (ZOp.focus "a") (runZOps c9ops)).floating ∧
    c9A ∈ (zstep (ZOp.focus "a") (runZOps c9ops)).floating ∧
    c9B.zIndex < c9A.zIndex :=
  ⟨by decide, by decide,
   (c9_zorder_focus_top c9ops "a" c9psA).1 c9B (by decide) c9A (by decide)
     (by decide) (by decide)⟩

/-!
## Zoom clamps of DraggablePhoto
-/

/-- The scale computed by a pinch update (DraggablePhoto.tsx line 110):
Math.min(Math.max(pinchStart.scale * scaleDelta, 0.5), 2). -/
def pinchNewScale (startScale scaleDelta : ℚ) : ℚ :=
  min (max (startScale * scaleDelta) (1/2)) 2

/-- The scale computed by a wheel update (DraggablePhoto.tsx lines
157-158): delta = -deltaY * 0.001 and
Math.min(Math.max(photo.scale + delta, 0.5), 1.5). -/
def wheelNewScale (scale deltaY : ℚ) : ℚ :=
  min (max (scale + -deltaY * (1/1000)) (1/2)) (3/2)

/-- C10: every zoom update keeps the scale within [0.5, 2]: a pinch
clamps into [0.5, 2] and a wheel into the narrower [0.5, 1.5], and both
upper bounds are attained, so the two input methods really enforce
different maxima. -/
theorem c10_zoom_clamp_bounds (a b c d : ℚ) :
    (1/2 ≤ pinchNewScale a b ∧ pinchNewScale a b ≤ 2) ∧
    (1/2 ≤ wheelNewScale c d ∧ wheelNewScale c d ≤ 3/2) ∧
    wheelNewScale c d ≤ 2 ∧
    pinchNewScale 1 3 = 2 ∧
    wheelNewScale 1 (-1000) = 3/2 := by
  refine ⟨⟨?_, ?_⟩, ⟨?_, ?_⟩, ?_, ?_, ?_⟩
  · exact le_min (le_max_right _ _) (by norm_num)
  · exact min_le_right _ _
  · exact le_min (le_max_right _ _) (by norm_num)
  · exact min_le_right _ _
  · exact le_trans (min_le_right _ _) (by norm_num)
  · norm_num [pinchNewScale]
  · norm_num [wheelNewScale]

end Polacam
